import Mathlib

/-!
Shallow embedding of the Lighthouse discovery-and-dispatch program
(src/src/main.rs) in Lean 4.

Conventions:
* Rust strings are modelled as `List Char`; all device names in play are
  ASCII, so Rust's byte indexing and char indexing coincide.
* Machine integers parsed from hex pairs are `Nat` (u8 values 0..255;
  `u8::from_str_radix` on at most two hex digits cannot overflow).
* `Instant`s and `Duration`s are `Nat` milliseconds; `Duration::from_secs 10`
  is `10000`.  `Instant::duration_since` saturates at zero, matching `Nat`
  truncated subtraction.
* Fallible Rust code returns `ROut`, which distinguishes `ok`, a returned
  `Err` value, and a runtime `panic` (out-of-bounds slice, integer
  underflow, `unwrap` on `Err`).
-/

/-- The `State` enum of main.rs (logical power state, lines 13-18). -/
inductive State
  | Off
  | On
  | Standby
deriving DecidableEq, Repr

/-- The `lighthouse::Error` variants referenced by main.rs: `Error::Std`
wraps a `ParseIntError` from `u8::from_str_radix` (the FormatError),
`Error::Message` wraps a static string (used for the unsupported-state
error), `Error::Uuid` a uuid parse failure and `Error::Btle` an adapter
failure.  Write failures from `lighthouse::write` are arbitrary `Error`
values. -/
inductive Error
  | Std
  | Message (msg : String)
  | Uuid
  | Btle
deriving DecidableEq, Repr

/-- Outcome of running a fallible Rust computation: a value, a returned
error, or a runtime panic. -/
inductive ROut (α : Type)
  | ok (a : α)
  | err (e : Error)
  | panic
deriving DecidableEq, Repr

/-- Sequencing that mirrors Rust's `?`: errors and panics short-circuit. -/
def ROut.bind {α β : Type} : ROut α → (α → ROut β) → ROut β
  | .ok a, f => f a
  | .err e, _ => .err e
  | .panic, _ => .panic

/-- Value of one hexadecimal digit, as recognised by `from_str_radix(_, 16)`. -/
def hexDigitVal (c : Char) : Option Nat :=
  if '0' ≤ c ∧ c ≤ '9' then some (c.toNat - '0'.toNat)
  else if 'a' ≤ c ∧ c ≤ 'f' then some (c.toNat - 'a'.toNat + 10)
  else if 'A' ≤ c ∧ c ≤ 'F' then some (c.toNat - 'A'.toNat + 10)
  else none

/-- Rust `u8::from_str_radix(s, 16)`: an optional leading `+` sign followed by a
nonempty run of hex digits; `none` models `Err(ParseIntError)`.  On at most
two digits the u8 overflow case is unreachable. -/
def fromStrRadix16 (s : List Char) : Option Nat :=
  let digits := match s with
    | '+' :: rest => rest
    | _ => s
  match digits with
  | [] => none
  | _ =>
    digits.foldl
      (fun acc c =>
        match acc, hexDigitVal c with
        | some a, some d => some (a * 16 + d)
        | _, _ => none)
      (some 0)

/-- Rust string slicing `&s[a..b]`: `none` models the out-of-bounds panic
(when `a > b` or `b > s.len()`). -/
def sliceStr (s : List Char) (a b : Nat) : Option (List Char) :=
  if a ≤ b ∧ b ≤ s.length then some ((s.take b).drop a) else none

/-- The Generation-1 target characteristic UUID constant (main.rs line 49). -/
def V1_UUID : String := "0000cb01-0000-1000-8000-00805f9b34fb"

/-- The Generation-2 target characteristic UUID constant (main.rs line 63). -/
def V2_UUID : String := "00001525-1212-efde-1523-785feabcd124"

/-- The pure encoding part of `v1ctrl` (main.rs lines 26-47): slice the
trailing 4 characters of the name into `bsid`, extract and parse four
2-character hex pairs from `bsid`, then build the 20-byte command for the
requested state.  `name.len() - 4` underflows (a panic) when the name is
shorter than 4 characters; each `&bsid[a..b]` panics when out of bounds. -/
def v1encode (name : List Char) (state : State) : ROut (List Nat) :=
  if name.length < 4 then .panic
  else
    let bsid := name.drop (name.length - 4)
    match sliceStr bsid 0 2 with
    | none => .panic
    | some s1 =>
      match fromStrRadix16 s1 with
      | none => .err .Std
      | some aa =>
        match sliceStr bsid 2 4 with
        | none => .panic
        | some s2 =>
          match fromStrRadix16 s2 with
          | none => .err .Std
          | some bb =>
            match sliceStr bsid 4 6 with
            | none => .panic
            | some s3 =>
              match fromStrRadix16 s3 with
              | none => .err .Std
              | some cc =>
                match sliceStr bsid 6 8 with
                | none => .panic
                | some s4 =>
                  match fromStrRadix16 s4 with
                  | none => .err .Std
                  | some dd =>
                    match state with
                    | .Off => .ok [0x12, 0x02, 0x00, 0x01, dd, cc, bb, aa,
                        0x00, 0x00, 0x00, 0x00, 0x00, 0x00,
                        0x00, 0x00, 0x00, 0x00, 0x00, 0x00]
                    | .On => .ok [0x12, 0x00, 0x00, 0x00, dd, cc, bb, aa,
                        0x00, 0x00, 0x00, 0x00, 0x00, 0x00,
                        0x00, 0x00, 0x00, 0x00, 0x00, 0x00]
                    | .Standby => .err (.Message
                        "V1: Unknown State \x7bstate\x7d, Available: [OFF|ON]")

/-- The pure encoding part of `v2ctrl` (main.rs lines 57-61). -/
def v2encode (state : State) : List Nat :=
  match state with
  | .Off => [0x00]
  | .On => [0x01]
  | .Standby => [0x02]

/-- A GATT write request: payload bytes plus target characteristic UUID. -/
abbrev WriteReq := List Nat × String

/-- Function `v1ctrl` (main.rs lines 25-54): encode, then write the command to the
Generation-1 characteristic.  The external `lighthouse::write` is the
oracle `write` (`none` = success, `some e` = `Err(e)`).  The first
component logs the write requests actually issued. -/
def v1ctrl (name : List Char) (state : State)
    (write : List Nat → String → Option Error) : List WriteReq × ROut Unit :=
  match v1encode name state with
  | .ok cmd =>
    ([(cmd, V1_UUID)],
      match write cmd V1_UUID with
      | none => .ok ()
      | some e => .err e)
  | .err e => ([], .err e)
  | .panic => ([], .panic)

/-- Function `v2ctrl` (main.rs lines 56-68): encode (total), then write to the
Generation-2 characteristic. -/
def v2ctrl (state : State)
    (write : List Nat → String → Option Error) : List WriteReq × ROut Unit :=
  let cmd := v2encode state
  ([(cmd, V2_UUID)],
    match write cmd V2_UUID with
    | none => .ok ()
    | some e => .err e)

/-- The classifier outcome of the spec's Device Classifier. -/
inductive Generation
  | Generation1
  | Generation2
  | NotApplicable
deriving DecidableEq, Repr

/-- The Device Classifier: the name-prefix dispatch of `get_peripherals`
(main.rs lines 73-79) as a standalone pure function: `starts_with "HTC BS"`
selects Generation 1, otherwise `starts_with "LHB-"` selects Generation 2,
otherwise (or when the name is absent) no generation applies. -/
def classify : Option (List Char) → Generation
  | none => .NotApplicable
  | some name =>
    if ("HTC BS".data).isPrefixOf name then .Generation1
    else if ("LHB-".data).isPrefixOf name then .Generation2
    else .NotApplicable

/-- Struct `PeripheralProperties` as used by main.rs: only the advertised local
name is consulted. -/
structure PeripheralProps where
  local_name : Option (List Char)
deriving DecidableEq, Repr

/-- Function `get_peripherals` (main.rs lines 70-85).  `periph` is the outcome of
`central.peripheral(id)` (its `Err` propagates via `?`); `props` the outcome
of `peripheral.properties()` (anything but `Ok(Some _)` silently falls
through to `Ok(None)`); `time` is the `Instant::now()` taken before the
prefix tests; `write` the external write oracle.  Returns the issued write
requests and the task's `Result<Option<Instant>, Error>`. -/
def get_peripherals (periph : Except Error Unit)
    (props : Except Error (Option PeripheralProps)) (time : Nat)
    (state : State) (write : List Nat → String → Option Error) :
    List WriteReq × ROut (Option Nat) :=
  match periph with
  | .error e => ([], .err e)
  | .ok _ =>
    match props with
    | .ok (some p) =>
      match p.local_name with
      | some name =>
        if ("HTC BS".data).isPrefixOf name then
          let (w, r) := v1ctrl name state write
          (w, r.bind fun _ => .ok (some time))
        else if ("LHB-".data).isPrefixOf name then
          let (w, r) := v2ctrl state write
          (w, r.bind fun _ => .ok (some time))
        else ([], .ok (some time))
      | none => ([], .ok none)
    | _ => ([], .ok none)

/-- The Adaptive Timeout Controller's mutable locals (main.rs lines
131-132): `prev` (previous successful-dispatch `Instant`) and `duration`
(the current timeout `Duration`), both in milliseconds. -/
structure CtrlState where
  prev : Nat
  duration : Nat
deriving DecidableEq, Repr

/-- The body of `if let Some(time) = res` in the controller loop (main.rs
lines 142-146): a successful dispatch carrying timestamp `time` sets
`duration := (time - prev) * 10` and `prev := time` (`duration_since`
saturates at zero, as `Nat` subtraction does); a `None` result leaves the
state untouched. -/
def ctrlStep (st : CtrlState) (res : Option Nat) : CtrlState :=
  match res with
  | some time => { prev := time, duration := (time - st.prev) * 10 }
  | none => st

/-- One queued Dispatch Task handle as seen by the controller: `avail` is
the instant `rx.recv()` yields the handle (racing the timeout), `done` the
instant `ret.await` returns (when the next loop iteration starts), and
`result` the task's outcome — a panicking task surfaces as `Err(JoinError)`
from `ret.await`, which `unwrap` turns into a controller panic. -/
structure QueueItem where
  avail : Nat
  done : Nat
  result : ROut (Option Nat)
deriving DecidableEq, Repr

/-- Outcome of the controller loop / the whole `main` body. -/
inductive RunOut
  | ok
  | err (e : Error)
  | panic
deriving DecidableEq, Repr

/-- The controller `loop` (main.rs lines 133-149) over the queued handles,
with `now` the instant the current iteration (re)creates its sleep: the
timeout wins the `select!` when no handle becomes available within
`st.duration`, ending the session with `Ok(())`; otherwise the handle's
result is consumed — a task panic makes `ret.await.unwrap()` panic, a task
error propagates through `?`, and a task value feeds `ctrlStep` before the
loop re-arms at the instant the await finished. -/
def ctrlRun : CtrlState → Nat → List QueueItem → RunOut
  | _, _, [] => .ok
  | st, now, item :: rest =>
    if now + st.duration < item.avail then .ok
    else
      match item.result with
      | .panic => .panic
      | .err e => .err e
      | .ok res => ctrlRun (ctrlStep st res) item.done rest

/-- The controller as entered from `main` (main.rs lines 131-150): `prev`
is initialised to `Instant::now()` at loop-entry (`start`) and `duration`
to `Duration::from_secs(10)` = 10000 ms. -/
def mainLoop (start : Nat) (items : List QueueItem) : RunOut :=
  ctrlRun ⟨start, 10000⟩ start items

/-- True when every listed handle arrives before the evolving timeout and
carries an `Ok` task result, so the controller consumes the whole list. -/
def allConsumedOk : CtrlState → Nat → List QueueItem → Bool
  | _, _, [] => true
  | st, now, item :: rest =>
    decide (item.avail ≤ now + st.duration) &&
      match item.result with
      | .ok res => allConsumedOk (ctrlStep st res) item.done rest
      | _ => false

/-- The controller state and iteration-start instant after consuming a list
of `Ok` handles (stops early at a non-`Ok` result). -/
def runState : CtrlState → Nat → List QueueItem → CtrlState × Nat
  | st, now, [] => (st, now)
  | st, now, item :: rest =>
    match item.result with
    | .ok res => runState (ctrlStep st res) item.done rest
    | _ => (st, now)

/-- The `Args` struct of main.rs (lines 87-96): the required `state` flag
and the optional `bsid` flag. -/
structure Args where
  state : String
  bsid : Option String
deriving DecidableEq, Repr

/-- The state-string match at the top of `main` (main.rs lines 102-111). -/
def parseState (s : String) : Except Error State :=
  match s.toUpper with
  | "OFF" => .ok State.Off
  | "ON" => .ok State.On
  | "STANDBY" => .ok State.Standby
  | _ => .error (.Message
      "Unknown State \x7bstate\x7d, Available: [OFF|ON|STANDBY]")

/-- One discovery event as `main` consumes it: the external outcomes of the
spawned task's `peripheral`/`properties` calls, its recorded `Instant`, and
the instants its handle becomes available on the channel and its await
completes. -/
structure DeviceEvent where
  periph : Except Error Unit
  props : Except Error (Option PeripheralProps)
  time : Nat
  avail : Nat
  done : Nat

/-- The core of `main` (main.rs lines 98-151) after adapter setup: parse
the state string from `args` (the `bsid` field is never read), run one
`get_peripherals` task per discovery event, and drain the handles through
the adaptive-timeout controller.  Returns the run outcome and the write
requests issued by the spawned tasks. -/
def runProgram (args : Args) (start : Nat) (events : List DeviceEvent)
    (write : List Nat → String → Option Error) : RunOut × List WriteReq :=
  match parseState args.state with
  | .error e => (.err e, [])
  | .ok state =>
    let tasks := events.map fun ev =>
      let out := get_peripherals ev.periph ev.props ev.time state write
      ((⟨ev.avail, ev.done, out.2⟩ : QueueItem), out.1)
    (mainLoop start (tasks.map Prod.fst), (tasks.map Prod.snd).flatten)

/-- C1: the Generation-1 encoder is claimed to extract the trailing 8 hex
characters and produce, for name "HTC BS12345678" and state On, the payload
`12 00 00 00 78 56 34 12` + 12 zero bytes; the code instead slices only the
trailing 4 characters and then indexes bytes 4..8 of that 4-byte slice,
which is out of bounds: on this input the encoder panics and no write is
attempted. -/
theorem c1_gen1_on_example_panics :
    v1encode ("HTC BS12345678".data) State.On = ROut.panic ∧
    v1encode ("HTC BS12345678".data) State.On ≠
      ROut.ok [0x12, 0x00, 0x00, 0x00, 0x78, 0x56, 0x34, 0x12,
        0x00, 0x00, 0x00, 0x00, 0x00, 0x00,
        0x00, 0x00, 0x00, 0x00, 0x00, 0x00] ∧
    v1ctrl ("HTC BS12345678".data) State.On (fun _ _ => none)
      = ([], ROut.panic) :=
  ⟨by decide, by decide, by decide⟩

/-- C2: for the name "HTC BSZZZZ1234", whose trailing 8 characters
"ZZZZ1234" are not 4 valid hex pairs, the claim demands a FormatError; the
code parses only the two pairs of the trailing 4 characters "1234" (both
valid) and then panics on the out-of-bounds slice `bsid[4..6]`, so it
panics instead of returning the error. -/
theorem c2_invalid_hex_name_panics :
    v1encode ("HTC BSZZZZ1234".data) State.On = ROut.panic ∧
    v1encode ("HTC BSZZZZ1234".data) State.On ≠ ROut.err Error.Std :=
  ⟨by decide, by decide⟩

/-- C5: for a name with a valid 8-hex-character identifier suffix and state
Standby the claim demands an UnsupportedStateError; the code panics on the
out-of-bounds slice before the state is ever examined. -/
theorem c5_standby_valid_suffix_panics :
    v1encode ("HTC BS12345678".data) State.Standby = ROut.panic ∧
    v1encode ("HTC BS12345678".data) State.Standby ≠
      ROut.err (Error.Message
        "V1: Unknown State \x7bstate\x7d, Available: [OFF|ON]") :=
  ⟨by decide, by decide⟩

/-- C10: for the name "HTC BS12ZZ5678", whose identifier hex pairs (per the
trailing-8-character identifier) include the unparsable pair "ZZ", the
claim demands FormatError even under Standby; the code parses only the two
pairs of the trailing 4 characters "5678" (both valid) and panics on the
out-of-bounds slice, so neither FormatError nor UnsupportedStateError is
produced. -/
theorem c10_parse_order_example_panics :
    v1encode ("HTC BS12ZZ5678".data) State.Standby = ROut.panic ∧
    v1encode ("HTC BS12ZZ5678".data) State.Standby ≠ ROut.err Error.Std :=
  ⟨by decide, by decide⟩

/-- C6: classification is a pure function of the name prefix: an absent
name is NotApplicable, a name starting with "HTC BS" is Generation1, a name
starting with "LHB-" is Generation2 (such a name can never also start with
"HTC BS"), and a name matching neither prefix is NotApplicable. -/
theorem c6_classifier_prefix_rule (name : List Char) :
    classify none = Generation.NotApplicable ∧
    (("HTC BS".data).isPrefixOf name = true →
      classify (some name) = Generation.Generation1) ∧
    (("LHB-".data).isPrefixOf name = true →
      classify (some name) = Generation.Generation2) ∧
    (("HTC BS".data).isPrefixOf name = false →
      ("LHB-".data).isPrefixOf name = false →
      classify (some name) = Generation.NotApplicable) := by
  refine ⟨rfl, fun h1 => by simp [classify, h1], fun h2 => ?_,
    fun h1 h2 => by simp [classify, h1, h2]⟩
  have h1 : ("HTC BS".data).isPrefixOf name = false := by
    cases name with
    | nil => simp [List.isPrefixOf] at h2
    | cons c cs =>
      have hc : c = 'L' := by
        have := h2
        simp [List.isPrefixOf, Bool.and_eq_true, beq_iff_eq] at this
        exact this.1.symm
      subst hc
      simp [List.isPrefixOf]
  simp [classify, h1, h2]

/-- C6 witness: concrete instances of each classifier rule. -/
theorem c6_classifier_prefix_rule_witness :
    classify (some "HTC BS12345678".data) = Generation.Generation1 ∧
    classify (some "LHB-ABCDEF".data) = Generation.Generation2 ∧
    classify (some "FOO".data) = Generation.NotApplicable :=
  ⟨(c6_classifier_prefix_rule ("HTC BS12345678".data)).2.1 (by decide),
   (c6_classifier_prefix_rule ("LHB-ABCDEF".data)).2.2.1 (by decide),
   (c6_classifier_prefix_rule ("FOO".data)).2.2.2 (by decide) (by decide)⟩

/-- C7: the Generation-2 encoder is total and injective on LogicalState:
Off, On, Standby map to the single-byte payloads [0x00], [0x01], [0x02], no
other payload is ever produced, every Generation-2 write targets the
constant UUID 00001525-1212-efde-1523-785feabcd124, and the spec's
end-to-end Standby example issues exactly that write. -/
theorem c7_v2_total_injective :
    Function.Injective v2encode ∧
    v2encode State.Off = [0x00] ∧
    v2encode State.On = [0x01] ∧
    v2encode State.Standby = [0x02] ∧
    (∀ s, v2encode s = [0x00] ∨ v2encode s = [0x01] ∨ v2encode s = [0x02]) ∧
    (∀ state write, (v2ctrl state write).1 = [(v2encode state, V2_UUID)]) ∧
    V2_UUID = "00001525-1212-efde-1523-785feabcd124" ∧
    get_peripherals (.ok ()) (.ok (some ⟨some "LHB-ABCDEF".data⟩)) 5
        State.Standby (fun _ _ => none)
      = ([([0x02], V2_UUID)], ROut.ok (some 5)) := by
  refine ⟨?_, rfl, rfl, rfl, ?_, ?_, rfl, by decide⟩
  · intro a b h
    cases a <;> cases b <;> simp [v2encode] at h ⊢
  · intro s; cases s <;> simp [v2encode]
  · intro s w; rfl

/-- C7 witness: injectivity applied at a concrete pair of equal payloads. -/
theorem c7_v2_total_injective_witness : State.Standby = State.Standby :=
  c7_v2_total_injective.1 (rfl : v2encode State.Standby = v2encode State.Standby)

/-- C9: the optional `bsid` flag is never consumed by the dispatch path:
two runs whose arguments differ only in that flag produce identical
outcomes and identical write requests on every environment. -/
theorem c9_bsid_noninterference (a1 a2 : Args) (h : a1.state = a2.state)
    (start : Nat) (events : List DeviceEvent)
    (write : List Nat → String → Option Error) :
    runProgram a1 start events write = runProgram a2 start events write := by
  cases a1; cases a2; cases h; rfl

/-- C9 witness: a concrete pair of runs differing only in the `bsid` flag. -/
theorem c9_bsid_noninterference_witness :
    runProgram ⟨"on", none⟩ 0
        [⟨Except.ok (), Except.ok (some ⟨some "LHB-A".data⟩), 5, 5, 5⟩]
        (fun _ _ => none)
      = runProgram ⟨"on", some "12345678"⟩ 0
        [⟨Except.ok (), Except.ok (some ⟨some "LHB-A".data⟩), 5, 5, 5⟩]
        (fun _ _ => none) :=
  c9_bsid_noninterference _ _ rfl _ _ _

/-- C4: the controller starts with a 10-second (10000 ms) timeout and
`prev` = loop-entry time; every successful dispatch with timestamp `T` sets
the timeout to `(T - prev) * 10` and `prev` to `T`; successful dispatches
at intervals of 1 s, 2 s, 0.5 s yield timeouts of 10 s, 20 s, 5 s; and the
loop ends the session when no handle arrives before the current timeout
elapses. -/
theorem c4_adaptive_timeout :
    (∀ start items, mainLoop start items = ctrlRun ⟨start, 10000⟩ start items) ∧
    (∀ (st : CtrlState) (T : Nat),
      ctrlStep st (some T) = ⟨T, (T - st.prev) * 10⟩) ∧
    (ctrlStep ⟨0, 10000⟩ (some 1000) = ⟨1000, 10000⟩ ∧
      ctrlStep ⟨1000, 10000⟩ (some 3000) = ⟨3000, 20000⟩ ∧
      ctrlStep ⟨3000, 20000⟩ (some 3500) = ⟨3500, 5000⟩) ∧
    (∀ st now, ctrlRun st now [] = RunOut.ok) ∧
    (∀ st now item rest, now + st.duration < item.avail →
      ctrlRun st now (item :: rest) = RunOut.ok) := by
  refine ⟨fun _ _ => rfl, fun st T => rfl, ⟨by decide, by decide, by decide⟩,
    fun st now => rfl, ?_⟩
  intro st now item rest h
  simp [ctrlRun, h]

/-- C4 witness: a handle arriving after the deadline ends the session. -/
theorem c4_adaptive_timeout_witness :
    ctrlRun ⟨0, 10000⟩ 0 [⟨20000, 20000, ROut.ok (some 20000)⟩] = RunOut.ok :=
  c4_adaptive_timeout.2.2.2.2 ⟨0, 10000⟩ 0 ⟨20000, 20000, ROut.ok (some 20000)⟩
    [] (by decide)

/-- C8: the first task error to be consumed aborts the whole run with that
error: whatever `Ok` handles were consumed before it and whatever handles
would have followed, once a handle carrying an `Err` arrives in time the
controller loop returns that error immediately. -/
theorem c8_first_failure_aborts (st : CtrlState) (now : Nat)
    (pre : List QueueItem) (bad : QueueItem) (rest : List QueueItem)
    (e : Error) (hpre : allConsumedOk st now pre = true)
    (hres : bad.result = ROut.err e)
    (harr : bad.avail ≤ (runState st now pre).2 + (runState st now pre).1.duration) :
    ctrlRun st now (pre ++ bad :: rest) = RunOut.err e := by
  induction pre generalizing st now with
  | nil =>
    simp [runState] at harr
    simp [ctrlRun, Nat.not_lt.mpr harr, hres]
  | cons item pre ih =>
    simp only [allConsumedOk, Bool.and_eq_true, decide_eq_true_eq] at hpre
    obtain ⟨hav, hrest⟩ := hpre
    cases hitem : item.result with
    | ok res =>
      rw [hitem] at hrest
      simp only at hrest
      have hrs : runState st now (item :: pre)
          = runState (ctrlStep st res) item.done pre := by
        simp [runState, hitem]
      rw [hrs] at harr
      have hstep : ctrlRun st now ((item :: pre) ++ bad :: rest)
          = ctrlRun (ctrlStep st res) item.done (pre ++ bad :: rest) := by
        simp [ctrlRun, Nat.not_lt.mpr hav, hitem]
      rw [hstep]
      exact ih _ _ hrest harr
    | err e2 => rw [hitem] at hrest; simp at hrest
    | panic => rw [hitem] at hrest; simp at hrest

/-- C8 witness: one successful handle followed by a FormatError handle; the
run ends with that error even though another successful handle follows. -/
theorem c8_first_failure_aborts_witness :
    ctrlRun ⟨0, 10000⟩ 0
        ([⟨1000, 1000, ROut.ok (some 1000)⟩] ++
          ⟨2000, 2000, ROut.err Error.Std⟩ ::
            [⟨3000, 3000, ROut.ok (some 3000)⟩])
      = RunOut.err Error.Std :=
  c8_first_failure_aborts ⟨0, 10000⟩ 0 [⟨1000, 1000, ROut.ok (some 1000)⟩]
    ⟨2000, 2000, ROut.err Error.Std⟩ [⟨3000, 3000, ROut.ok (some 3000)⟩]
    Error.Std (by decide) rfl (by decide)

/-- C3 counterexample: for the discovered device with present,
non-matching name "FOO" the task returns the success result `Some 5` (not
the not-applicable `None`), and the controller therefore does not leave its
state unchanged. -/
theorem c3_counterexample_nonmatching_name :
    (get_peripherals (.ok ()) (.ok (some ⟨some "FOO".data⟩)) 5 State.On
        (fun _ _ => none)).2 = ROut.ok (some 5) ∧
    (get_peripherals (.ok ()) (.ok (some ⟨some "FOO".data⟩)) 5 State.On
        (fun _ _ => none)).2 ≠ ROut.ok none ∧
    ctrlStep ⟨0, 10000⟩ (some 5) ≠ (⟨0, 10000⟩ : CtrlState) :=
  ⟨by decide, by decide, by decide⟩

/-- C3 amended: a present name matching neither prefix causes no write, but
the task returns success with its start timestamp (the not-applicable
result is reserved for failed resolution or an absent name), so the
controller updates previous-event-time to that timestamp and the timeout to
10 times the gap. -/
theorem c3_amended_nonmatching_updates_timeout (name : List Char)
    (t : Nat) (state : State) (write : List Nat → String → Option Error)
    (h1 : ("HTC BS".data).isPrefixOf name = false)
    (h2 : ("LHB-".data).isPrefixOf name = false) :
    get_peripherals (.ok ()) (.ok (some ⟨some name⟩)) t state write
      = ([], ROut.ok (some t)) ∧
    (∀ st : CtrlState, ctrlStep st (some t) = ⟨t, (t - st.prev) * 10⟩) := by
  constructor
  · simp [get_peripherals, h1, h2]
  · intro st; rfl

/-- C3 amended witness: the concrete non-matching name "FOO". -/
theorem c3_amended_witness :
    get_peripherals (.ok ()) (.ok (some ⟨some "FOO".data⟩)) 5 State.On
        (fun _ _ => none)
      = ([], ROut.ok (some 5)) ∧
    (∀ st : CtrlState, ctrlStep st (some 5) = ⟨5, (5 - st.prev) * 10⟩) :=
  c3_amended_nonmatching_updates_timeout ("FOO".data) 5 State.On
    (fun _ _ => none) (by decide) (by decide)
